import Mathlib

/-!
Verification development for the AI Startup Battle repository.

The definitions below are a shallow embedding of the TypeScript source:

* `src/lib/types.ts` — providers, `APIError`, `RETRY_CONFIG`;
* `src/lib/error-handling.ts` — `parseAPIError`, `parseHTTPError`, `withRetry`,
  `generateMockPitch`, `generateMockJudgeVerdict`, `executeWithFallbacks`;
* `src/lib/prompt-templates.ts` — `validateJudgeResponse`, `normalizeScores`;
* `src/app/api/judge/route.ts` and `src/app/api/pitch/groq/route.ts` — request
  validation and response dispatch of the route handlers;
* `src/components/battle-arena.tsx` — `streamPitch` (its retry recursion, its
  stream-decoding loop, and the SSE line handling for the groq provider),
  `checkAllComplete` and the debounced completion gate;
* `src/lib/api-client.ts` — `generateJudgeVerdictWithFallbacks`.

Modelling conventions: JavaScript numbers coming from JSON are rationals (ℚ);
normalized scores are integers (ℤ); wall-clock timestamps (`new Date()`) are
abstracted away (they appear in no claim); promises are pure values, with an
operation's successive outcomes supplied as an explicit function of the attempt
index, and `Math.random()` draws supplied as explicit arguments (the drawn
value of `Math.floor(Math.random() * 3)`).
-/

namespace Battle

/-- The three pitch providers, `type AIProvider` of `src/lib/types.ts`. -/
inductive AIProvider where
  | groq
  | openai
  | anthropic
deriving DecidableEq, Repr

/-- The lowercase wire name of a provider (its TypeScript string value). -/
def providerName : AIProvider → String
  | .groq => "groq"
  | .openai => "openai"
  | .anthropic => "anthropic"

/-- `interface APIError` of `src/lib/types.ts`.  The `details` payload and the
`timestamp` (wall clock) are abstracted away: no claim mentions them. -/
structure APIError where
  code : String
  message : String
  provider : Option AIProvider
  retryable : Bool
deriving DecidableEq, Repr

/-- `createAPIError` of `src/lib/error-handling.ts` (defaults `retryable` to
`false` when the option is absent; here the caller always passes it). -/
def createAPIError (code message : String) (provider : Option AIProvider)
    (retryable : Bool) : APIError :=
  ⟨code, message, provider, retryable⟩

/-- `createNetworkError` of `src/lib/error-handling.ts`. -/
def createNetworkError (provider : Option AIProvider) : APIError :=
  createAPIError "NETWORK_ERROR" "Network connection failed" provider true

/-- `createTimeoutError` of `src/lib/error-handling.ts`. -/
def createTimeoutError (provider : Option AIProvider) : APIError :=
  createAPIError "TIMEOUT_ERROR" "Request timed out" provider true

/-- `createAPIKeyError` of `src/lib/error-handling.ts`. -/
def createAPIKeyError (provider : AIProvider) : APIError :=
  createAPIError "API_KEY_ERROR"
    ("Missing or invalid API key for " ++ providerName provider)
    (some provider) false

/-- The shapes of raised values that `parseAPIError` discriminates between, in
the order the source tests them: an already-typed `APIError`; a `TypeError`
whose message mentions `fetch`; an error named `AbortError` or coded
`TIMEOUT`; an object carrying an HTTP `response` (status plus optional body
message); a plain JavaScript `Error`; a string; anything else. -/
inductive RawError where
  | apiError (e : APIError)
  | typeErrorFetch (message : String)
  | abortError
  | codeTimeout
  | httpResponse (status : Nat) (dataMessage : Option String)
  | jsError (message : String)
  | stringError (s : String)
  | otherError
deriving DecidableEq, Repr

/-- `parseHTTPError` of `src/lib/error-handling.ts`: map an HTTP status (plus
the body's optional `message`) to a typed error.  The 429 branch builds a
`RateLimitError`; its extra `retryAfter` fields are dropped here (no claim
mentions them), keeping its code and `retryable: true`. -/
def parseHTTPError (status : Nat) (dataMessage : Option String)
    (provider : Option AIProvider) : APIError :=
  if status = 400 then
    createAPIError "BAD_REQUEST" (dataMessage.getD "Bad request") provider false
  else if status = 401 then
    -- source: `createAPIKeyError(provider!)`; with no provider the name is blank
    createAPIError "API_KEY_ERROR"
      ("Missing or invalid API key for " ++
        (provider.map providerName).getD "") provider false
  else if status = 403 then
    createAPIError "FORBIDDEN" "Access forbidden" provider false
  else if status = 404 then
    createAPIError "NOT_FOUND" "Resource not found" provider false
  else if status = 429 then
    createAPIError "RATE_LIMIT_ERROR" "Rate limit exceeded" provider true
  else if status = 500 then
    createAPIError "INTERNAL_SERVER_ERROR" "Internal server error" provider true
  else if status = 502 ∨ status = 503 ∨ status = 504 then
    createAPIError "SERVICE_UNAVAILABLE" "Service temporarily unavailable"
      provider true
  else
    createAPIError "HTTP_ERROR"
      ("HTTP " ++ toString status ++ ": " ++ (dataMessage.getD "Unknown error"))
      provider (decide (500 ≤ status))

/-- `parseAPIError` of `src/lib/error-handling.ts`: classify any raised value
as an `APIError`.  Note the `AbortError` branch, which the source shares with
`code === 'TIMEOUT'`: both become a retryable timeout error. -/
def parseAPIError (error : RawError) (provider : Option AIProvider) : APIError :=
  match error with
  | .apiError e => e
  | .typeErrorFetch _ => createNetworkError provider
  | .abortError => createTimeoutError provider
  | .codeTimeout => createTimeoutError provider
  | .httpResponse status dataMessage => parseHTTPError status dataMessage provider
  | .jsError message =>
      createAPIError "UNKNOWN_ERROR"
        (if message = "" then "An unknown error occurred" else message)
        provider false
  | .stringError s => createAPIError "UNKNOWN_ERROR" s provider false
  | .otherError =>
      createAPIError "UNKNOWN_ERROR" "An unknown error occurred" provider false

/-- `RETRY_CONFIG.maxRetries` of `src/lib/types.ts`. -/
def RETRY_CONFIG_maxRetries : Nat := 3

/-- `RETRY_CONFIG.retryDelay` of `src/lib/types.ts` (milliseconds). -/
def RETRY_CONFIG_retryDelay : Nat := 1000

/-- `RETRY_CONFIG.backoffMultiplier` of `src/lib/types.ts`. -/
def RETRY_CONFIG_backoffMultiplier : Nat := 2

/-- One attempt's outcome for an asynchronous operation handed to `withRetry`:
it either fulfills with a value or rejects with a raw error. -/
inductive OpOutcome (R : Type) where
  | ok (r : R)
  | fail (e : RawError)

/-- The observable trace of one `withRetry` run: the final settlement, the
number of times the operation was invoked, the `onRetry` observer calls
`(classified error, 1-based attempt number)` in order, and the backoff waits
(milliseconds) in order. -/
structure RetryTrace (R : Type) where
  result : Except APIError R
  attemptsMade : Nat
  observerCalls : List (APIError × Nat)
  delays : List Nat

/-- The loop body of `withRetry` (`src/lib/error-handling.ts`), starting at a
given 0-based attempt index.  The source iterates `attempt` from `0` to
`maxRetries` inclusive; on a caught error it classifies it with
`parseAPIError`, rethrows when `attempt === maxRetries` or the default
`retryCondition` (`error.retryable`) fails, and otherwise calls the observer
with `(error, attempt + 1)`, waits `retryDelay * backoffMultiplier ^ attempt`
and continues.  (The stop test is written `maxRetries ≤ attempt`, equivalent
to the source's equality since attempts start at 0 and increase by 1.) -/
def withRetryGo {R : Type} (op : Nat → OpOutcome R)
    (maxRetries retryDelay backoffMultiplier : Nat) (attempt : Nat) :
    RetryTrace R :=
  match op attempt with
  | .ok r => ⟨.ok r, attempt + 1, [], []⟩
  | .fail e =>
    let lastError := parseAPIError e none
    if h : maxRetries ≤ attempt ∨ lastError.retryable = false then
      ⟨.error lastError, attempt + 1, [], []⟩
    else
      let rest := withRetryGo op maxRetries retryDelay backoffMultiplier
        (attempt + 1)
      ⟨rest.result, rest.attemptsMade,
        (lastError, attempt + 1) :: rest.observerCalls,
        (retryDelay * backoffMultiplier ^ attempt) :: rest.delays⟩
termination_by maxRetries + 1 - attempt
decreasing_by
  simp only [not_or] at h
  omega

/-- `withRetry` of `src/lib/error-handling.ts` with the default options
(`RETRY_CONFIG`, default `retryCondition`, observer recorded in the trace). -/
def withRetry {R : Type} (op : Nat → OpOutcome R) : RetryTrace R :=
  withRetryGo op RETRY_CONFIG_maxRetries RETRY_CONFIG_retryDelay
    RETRY_CONFIG_backoffMultiplier 0

/-! The mock fallback generator (`src/lib/error-handling.ts`).  The repository
file stores its emoji as a double-encoded (mojibake) character sequence; those
characters are written below with `\u` escapes, exactly as they decode from
the file's bytes.  The bullet character of the templates: -/

/-- The bullet glyph used throughout the mock templates (the file's bytes for
it decode to these three characters). -/
def bulletGlyph : String := "\u00E2\u20AC\u00A2 "

/-- `generateMockPitch` of `src/lib/error-handling.ts`: the deterministic
placeholder pitch for a provider and a `concept`/`userGroup` pair.  The
source receives these as a `MockDataOptions` object; here they are the three
arguments. -/
def generateMockPitch (concept userGroup : String) : AIProvider → String
  | .groq =>
    "\u00F0\u0178\u0161\u20AC **" ++ concept.toUpper ++ " FOR " ++
    userGroup.toUpper ++ "** (Powered by LLAMA 3.3)\n\n**The Vision**\n" ++
    userGroup ++ " deserve a " ++ concept ++
    " that\x27s built for speed, efficiency, and results. Our platform leverages cutting-edge AI to deliver instant, personalized solutions.\n\n**Key Features**\n"
    ++ bulletGlyph ++ "Lightning-fast processing with sub-second response times\n"
    ++ bulletGlyph ++ "Advanced AI algorithms optimized for " ++ userGroup ++ "\n"
    ++ bulletGlyph ++ "Seamless integration with existing workflows\n"
    ++ bulletGlyph ++ "Real-time analytics and insights\n\n**Market Opportunity**\nThe "
    ++ userGroup ++
    " market is underserved and ready for disruption. With our AI-first approach, we can capture significant market share quickly.\n\n**Competitive Advantage**\n"
    ++ bulletGlyph ++ "10x faster than traditional solutions\n"
    ++ bulletGlyph ++ "AI-powered personalization engine\n"
    ++ bulletGlyph ++ "Proven scalability with enterprise clients\n\n" ++
    "\u00F0\u0178\u2019\u00B0 **Revenue Model**: Freemium with premium AI features\n" ++
    "\u00F0\u0178\u201C\u02C6 **Traction**: Growing 40% month-over-month"
  | .openai =>
    "\u00F0\u0178\u017D\u00AF **" ++ concept.toUpper ++ " FOR " ++
    userGroup.toUpper ++ "** (Powered by GPT-4o)\n\n**Problem Statement**\n" ++
    userGroup ++
    " face significant challenges with current solutions that are outdated, expensive, and don\x27t scale with their needs.\n\n**Our Solution**\nWe\x27re building an intelligent "
    ++ concept ++ " platform that uses advanced AI to understand " ++ userGroup ++
    " requirements and deliver personalized experiences.\n\n**Technical Innovation**\n"
    ++ bulletGlyph ++ "GPT-4o integration for natural language processing\n"
    ++ bulletGlyph ++ "Machine learning models trained on " ++ userGroup ++ " data\n"
    ++ bulletGlyph ++ "Automated workflow optimization\n"
    ++ bulletGlyph ++ "Predictive analytics and forecasting\n\n**Business Model**\n"
    ++ bulletGlyph ++ "SaaS subscription: $29-$299/month\n"
    ++ bulletGlyph ++ "Usage-based pricing for enterprise\n"
    ++ bulletGlyph ++ "Professional services and consulting\n\n**Go-to-Market Strategy**\n"
    ++ "1. Direct sales to " ++ userGroup ++ " organizations\n" ++
    "2. Partnership with industry leaders\n3. Content marketing and thought leadership\n4. Product-led growth through freemium model\n\n"
    ++ "\u00F0\u0178\u017D\u00AF **Target**: $10M ARR by year 2"
  | .anthropic =>
    "\u00F0\u0178\u2019\u00A1 **" ++ concept.toUpper ++ " FOR " ++
    userGroup.toUpper ++
    "** (Powered by Claude Sonnet 4)\n\n**Executive Summary**\nWe\x27re revolutionizing how "
    ++ userGroup ++ " interact with " ++ concept ++
    " through ethical AI that prioritizes safety, accuracy, and user empowerment.\n\n**Core Philosophy**\n"
    ++ bulletGlyph ++ "Human-centric design principles\n"
    ++ bulletGlyph ++ "Transparent AI decision-making\n"
    ++ bulletGlyph ++ "Privacy-first architecture\n"
    ++ bulletGlyph ++ "Sustainable business practices\n\n**Product Features**\n"
    ++ bulletGlyph ++ "Constitutional AI for safe, helpful responses\n"
    ++ bulletGlyph ++ "Multi-modal understanding (text, images, data)\n"
    ++ bulletGlyph ++ "Collaborative AI workspaces\n"
    ++ bulletGlyph ++ "Comprehensive audit trails\n\n**Market Analysis**\n" ++
    userGroup ++
    " represent a $5B+ market with 70% reporting dissatisfaction with current solutions. Our research shows 85% would switch for better AI integration.\n\n**Ethical AI Framework**\n"
    ++ bulletGlyph ++ "Bias detection and mitigation\n"
    ++ bulletGlyph ++ "Explainable AI outputs\n"
    ++ bulletGlyph ++ "User data sovereignty\n"
    ++ bulletGlyph ++ "Regular ethics audits\n\n**Financial Projections**\n" ++
    "Year 1: $2M ARR (1,000 customers)\nYear 2: $8M ARR (3,500 customers)  \nYear 3: $20M ARR (7,000 customers)\n\n"
    ++ "\u00F0\u0178\u0152\u0178 **Mission**: Democratizing AI for " ++ userGroup ++
    " worldwide"

/-- The three mock judge scores, one per provider (`scores` object built by
`generateMockJudgeVerdict`). -/
structure MockScores where
  groq : Nat
  openai : Nat
  anthropic : Nat
deriving DecidableEq, Repr

/-- Score lookup `scores[p]` on the mock scores object. -/
def mscore (s : MockScores) : AIProvider → Nat
  | .groq => s.groq
  | .openai => s.openai
  | .anthropic => s.anthropic

/-- The winner computation of `generateMockJudgeVerdict`:
`Object.entries(scores).reduce((a, b) => scores[a[0]] > scores[b[0]] ? a : b)`
over the entry order `groq, openai, anthropic`.  Note it keeps `a` only on a
strict `>`, so on a tie the later entry wins. -/
def reduceWinner (s : MockScores) : AIProvider :=
  let w1 := if mscore s .groq > mscore s .openai then AIProvider.groq
            else AIProvider.openai
  if mscore s w1 > mscore s .anthropic then w1 else AIProvider.anthropic

/-- The reasoning template of `generateMockJudgeVerdict` (same mojibake-glyph
convention as the pitch templates). -/
def mockJudgeReasoning (winner : AIProvider) (winnerScore : Nat) : String :=
  "After careful analysis of all three pitches, " ++
  (providerName winner).toUpper ++
  " emerges as the winner with a score of " ++ toString winnerScore ++
  "/10.\n\n**Evaluation Criteria:**\n"
  ++ bulletGlyph ++ "**Market Viability**: How realistic and addressable is the market opportunity?\n"
  ++ bulletGlyph ++ "**Innovation**: How novel and differentiated is the solution?\n"
  ++ bulletGlyph ++ "**Execution**: How well thought-out is the go-to-market strategy?\n"
  ++ bulletGlyph ++ "**Presentation**: How clear and compelling is the pitch delivery?\n\n**"
  ++ (providerName winner).toUpper ++ " excelled in:**\n" ++
  (match winner with
   | .groq => bulletGlyph ++ "Speed and efficiency focus\n" ++ bulletGlyph ++
       "Clear technical advantages\n" ++ bulletGlyph ++ "Strong traction metrics"
   | .openai => bulletGlyph ++ "Comprehensive market analysis\n" ++ bulletGlyph ++
       "Technical innovation depth\n" ++ bulletGlyph ++ "Solid financial projections"
   | .anthropic => bulletGlyph ++ "Ethical AI framework\n" ++ bulletGlyph ++
       "Human-centric approach\n" ++ bulletGlyph ++ "Sustainable business model")
  ++ "\n\n**Areas for improvement across all pitches:**\n"
  ++ bulletGlyph ++ "More specific customer validation data\n"
  ++ bulletGlyph ++ "Detailed competitive analysis\n"
  ++ bulletGlyph ++ "Risk mitigation strategies\n\nThis was a close competition with all models delivering strong, viable startup concepts!"

/-- The verdict object returned by `generateMockJudgeVerdict`. -/
structure MockVerdict where
  winner : AIProvider
  scores : MockScores
  reasoning : String
deriving DecidableEq, Repr

/-- `generateMockJudgeVerdict` of `src/lib/error-handling.ts`.  Each score is
`Math.floor(Math.random() * 3) + 7`; the three draws (each the value of
`Math.floor(Math.random() * 3)`, so a natural number below 3) are passed
explicitly.  The input pitches are unused by the source body. -/
def generateMockJudgeVerdict (r1 r2 r3 : Nat) : MockVerdict :=
  let scores : MockScores := ⟨r1 + 7, r2 + 7, r3 + 7⟩
  let winner := reduceWinner scores
  ⟨winner, scores, mockJudgeReasoning winner (mscore scores winner)⟩

/-! The judge response validation and sanitization of
`src/lib/prompt-templates.ts`, and the judge route's post-processing
(`src/app/api/judge/route.ts`). -/

/-- The three raw judge scores as sent by the upstream model (JSON numbers,
modelled as rationals). -/
structure JudgeScoresQ where
  groq : ℚ
  openai : ℚ
  anthropic : ℚ
deriving DecidableEq, Repr

/-- The three sanitized judge scores (integers after clamping/rounding). -/
structure JudgeScoresZ where
  groq : ℤ
  openai : ℤ
  anthropic : ℤ
deriving DecidableEq, Repr

/-- JavaScript's `Math.round`: round half toward positive infinity,
`⌊x + 1/2⌋`. -/
def jsRound (q : ℚ) : ℤ := ⌊q + 1 / 2⌋

/-- The `clamp` helper inside `normalizeScores` of
`src/lib/prompt-templates.ts`: `Math.max(1, Math.min(10, Math.round(value)))`. -/
def clampScore (q : ℚ) : ℤ := max 1 (min 10 (jsRound q))

/-- `normalizeScores` of `src/lib/prompt-templates.ts`. -/
def normalizeScores (s : JudgeScoresQ) : JudgeScoresZ :=
  ⟨clampScore s.groq, clampScore s.openai, clampScore s.anthropic⟩

/-- The judge result extracted from the upstream model's text
(`interface JudgeResponse` of `src/lib/prompt-templates.ts`): three numeric
scores, a `winner` string, a `reasoning` string. -/
structure UpstreamJudgeResult where
  scores : JudgeScoresQ
  winner : String
  reasoning : String
deriving DecidableEq, Repr

/-- `validateJudgeResponse` of `src/lib/prompt-templates.ts` (the runtime
checks; the `typeof` checks hold by the types of the embedding). -/
def validateJudgeResponse (r : UpstreamJudgeResult) : Bool :=
  (decide (r.winner = "groq") || decide (r.winner = "openai") ||
    decide (r.winner = "anthropic")) && decide (0 < r.reasoning.length)

/-- The score/winner content of the `JudgeResponse` the judge route returns
(`src/app/api/judge/route.ts`): the per-provider `score` fields, the `winner`,
and `overallReasoning`.  The derived per-criterion `breakdown` percentages and
the metadata are omitted (no claim mentions them). -/
structure JudgeRouteVerdict where
  scores : JudgeScoresZ
  winner : String
  overallReasoning : String
deriving DecidableEq, Repr

/-- The response construction at the end of `POST` in
`src/app/api/judge/route.ts`, applied to a validated upstream result: scores
are `normalizeScores(judgeResult.scores)`, `winner` is `judgeResult.winner` as
received, `overallReasoning` is `judgeResult.reasoning` with the source's `||`
fallback string. -/
def judgePOSTVerdict (r : UpstreamJudgeResult) : JudgeRouteVerdict :=
  ⟨normalizeScores r.scores, r.winner,
    if r.reasoning = "" then "Judge evaluation completed successfully."
    else r.reasoning⟩

/-! The per-provider slot and the `streamPitch` orchestration of
`src/components/battle-arena.tsx`. -/

/-- One provider's slot of the `PitchState` in `battle-arena.tsx`.  The
transient `isRetrying` flag (UI feedback between attempts) is omitted: the
model below records final slot states, and the final assignments of the source
either set it `false` or replace the slot without it. -/
structure Slot where
  content : String
  isComplete : Bool
  error : Option APIError
deriving DecidableEq, Repr

/-- The state of one round's three slots (`PitchState`). -/
structure PitchState where
  groq : Slot
  openai : Slot
  anthropic : Slot
deriving DecidableEq, Repr

/-- The outcome of one `streamPitch` attempt, as observed by its
`try`/`catch`: the stream finished with some accumulated content, or the fetch
was aborted (`error.name === 'AbortError'`), or it failed with an error
carrying optional `code` and `message` fields. -/
inductive StreamOutcome where
  | ok (content : String)
  | abort
  | fail (code : Option String) (message : Option String)

/-- The `APIError` that `streamPitch`'s catch block builds at a given retry
count: `code: error.code || 'STREAM_ERROR'`, the `||`-defaulted message, the
provider, and `retryable: retryCount < maxRetries` (with `maxRetries = 3`). -/
def streamPitchApiError (provider : AIProvider) (code message : Option String)
    (retryCount : Nat) : APIError :=
  ⟨code.getD "STREAM_ERROR",
    message.getD ("Failed to generate pitch for " ++ providerName provider),
    some provider, decide (retryCount < 3)⟩

/-- The retry recursion of `streamPitch` in `battle-arena.tsx`, with the
attempt outcomes given per retry count.  A successful stream marks the slot
complete with its accumulated content and clears the error; an `AbortError`
returns without touching the slot (`none`); any other failure either schedules
`streamPitch(provider, retryCount + 1)` when `retryCount < maxRetries` (the
intermediate error display and the `baseDelay * 2 ^ retryCount` wait do not
affect the final slot), or — retries exhausted — replaces the slot with
`{ content: '', isComplete: true, error: apiError }`. -/
def streamPitchFrom (provider : AIProvider) (outcomes : Nat → StreamOutcome)
    (retryCount : Nat) : Option Slot :=
  match outcomes retryCount with
  | .ok content => some ⟨content, true, none⟩
  | .abort => none
  | .fail code message =>
    let apiError := streamPitchApiError provider code message retryCount
    if h : retryCount < 3 then streamPitchFrom provider outcomes (retryCount + 1)
    else some ⟨"", true, some apiError⟩
termination_by 4 - retryCount
decreasing_by omega

/-- JavaScript `trim()`: drop whitespace from both ends (character-level
model, used for every `.trim()` of the source). -/
def trimL (l : List Char) : List Char :=
  ((l.dropWhile Char.isWhitespace).reverse.dropWhile Char.isWhitespace).reverse

/-- `trim()` on strings. -/
def jsTrimS (s : String) : String := ⟨trimL s.data⟩

/-- `hasValidContent` inside `checkAllComplete` of `battle-arena.tsx`:
`content.trim().length > 50`. -/
def hasValidContent (content : String) : Bool :=
  decide (50 < (jsTrimS content).length)

/-- `checkAllComplete` of `battle-arena.tsx`: reading the current state, it
invokes `onPitchesComplete` with the three contents exactly when all three
slots are complete and each has valid content; the model returns the callback
payload when the callback is scheduled and `none` otherwise. -/
def checkAllComplete (ps : PitchState) : Option (String × String × String) :=
  if (ps.groq.isComplete && ps.openai.isComplete && ps.anthropic.isComplete)
      && (hasValidContent ps.groq.content && hasValidContent ps.openai.content
          && hasValidContent ps.anthropic.content) then
    some (ps.groq.content, ps.openai.content, ps.anthropic.content)
  else none

/-- The debounce of `debouncedCheckAllComplete` (100 ms): given the times (in
milliseconds, nondecreasing) at which it is invoked, each invocation clears
the previously scheduled timer if that timer has not yet fired (i.e. if it
comes less than 100 ms after the previous invocation), so an invocation's
check executes iff it is the last one or the next invocation comes at least
100 ms later.  The result counts the `checkAllComplete` executions. -/
def executedChecks : List Nat → Nat
  | [] => 0
  | [_] => 1
  | t1 :: t2 :: rest =>
    (if t2 < t1 + 100 then 0 else 1) + executedChecks (t2 :: rest)

/-! The event-mode (groq SSE) branch of the stream-decoding loop in
`streamPitch` (`battle-arena.tsx`, inside `while (true)`), modelled on
character lists: JavaScript strings are sequences of characters and the
operations used (`includes`, `split('\n')`, `startsWith`, `slice(6)`,
`trim()`) are embedded one-to-one. -/

/-- `chunk.split('\n')` — split at every newline, keeping empty segments. -/
def splitNl : List Char → List (List Char)
  | [] => [[]]
  | c :: rest =>
    if c = '\n' then [] :: splitNl rest
    else
      match splitNl rest with
      | [] => [[c]]
      | l :: ls => (c :: l) :: ls

/-- The characters of the SSE marker `'data: '`. -/
def dataMarker : List Char := ['d', 'a', 't', 'a', ':', ' ']

/-- The characters of the terminator payload `'[DONE]'`. -/
def doneMarker : List Char := ['[', 'D', 'O', 'N', 'E', ']']

/-- `s.includes(pat)` on character lists. -/
def hasSub (pat : List Char) : List Char → Bool
  | [] => pat.isEmpty
  | c :: rest => pat.isPrefixOf (c :: rest) || hasSub pat rest

/-- The opening brace character (written by code point). -/
def lbrace : Char := Char.ofNat 123

/-- The closing brace character (written by code point). -/
def rbrace : Char := Char.ofNat 125

/-- Scan a JSON string body after its opening quote: the characters up to the
closing quote, plus the remainder.  Escapes are not handled (the payloads the
groq route emits in the claims contain none); a backslash fails the parse. -/
def jstrChars : List Char → Option (List Char × List Char)
  | [] => none
  | c :: rest =>
    if c = '"' then some ([], rest)
    else if c = '\\' then none
    else (jstrChars rest).map (fun p => (c :: p.1, p.2))

/-- A quoted JSON string: consume the opening quote then scan the body. -/
def parseJString : List Char → Option (List Char × List Char)
  | c :: rest => if c = '"' then jstrChars rest else none
  | [] => none

/-- The members of a flat JSON object, after the opening brace: a
comma-separated sequence of `"key":"value"` pairs followed by the closing
brace.  `fuel` bounds the recursion by the input length. -/
def parseMembers (fuel : Nat) (l : List Char) :
    Option (List (List Char × List Char) × List Char) :=
  match fuel with
  | 0 => none
  | fuel + 1 =>
    match parseJString l with
    | none => none
    | some (key, rest) =>
      match rest with
      | c :: rest2 =>
        if c = ':' then
          match parseJString rest2 with
          | none => none
          | some (value, rest3) =>
            match rest3 with
            | d :: rest4 =>
              if d = ',' then
                (parseMembers fuel rest4).map
                  (fun p => ((key, value) :: p.1, p.2))
              else if d = rbrace then some ([(key, value)], rest4)
              else none
            | [] => none
        else none
      | [] => none

/-- A model of `JSON.parse` restricted to the records the groq pitch route
emits: a flat object whose values are escape-free strings, with no
surrounding garbage.  Anything else fails (as `JSON.parse` fails on every
concrete payload used in the theorems below). -/
def parseFlatJson (s : List Char) : Option (List (List Char × List Char)) :=
  match s with
  | c :: rest =>
    if c = lbrace then
      if rest = [rbrace] then some []
      else
        match parseMembers rest.length rest with
        | some (members, []) => some members
        | _ => none
    else none
  | [] => none

/-- What one `data: ` line's payload means to the loop: a `text` event with
truthy content, a `done` event, a parsed record that triggers neither branch,
or a JSON parse failure. -/
inductive SSEEvent where
  | text (content : List Char)
  | done
  | noop
  | invalid
deriving DecidableEq, Repr

/-- Classify a (trimmed) payload the way the loop body does: parse it as JSON,
then test `data.type === 'text' && data.content`, else
`data.type === 'done'`. -/
def sseEventOf (js : List Char) : SSEEvent :=
  match parseFlatJson js with
  | none => .invalid
  | some fields =>
    match fields.lookup ['t', 'y', 'p', 'e'] with
    | some ['t', 'e', 'x', 't'] =>
      match fields.lookup ['c', 'o', 'n', 't', 'e', 'n', 't'] with
      | some (c :: cs) => .text (c :: cs)
      | _ => .noop
    | some ['d', 'o', 'n', 'e'] => .done
    | _ => .noop

/-- The `for (const line of lines)` body for groq: a line starting with
`'data: '` has its remainder trimmed; empty or `'[DONE]'` payloads are
skipped; a `text` event's content is appended to the update queue; a `done`
event breaks out of the line loop; an unparsable line is skipped (the source
logs a warning and drops it); other lines are ignored. -/
def processLines : List (List Char) → List Char
  | [] => []
  | line :: rest =>
    if dataMarker.isPrefixOf line then
      let js := trimL (line.drop 6)
      if js = [] ∨ js = doneMarker then processLines rest
      else
        match sseEventOf js with
        | .text c => c ++ processLines rest
        | .done => []
        | .noop => processLines rest
        | .invalid => processLines rest
    else processLines rest

/-- One chunk's contribution to the accumulated content for the groq
provider: the SSE line handling when the chunk contains `'data: '`, otherwise
the raw-text branch appends the chunk verbatim. -/
def processChunkL (chunk : List Char) : List Char :=
  if hasSub dataMarker chunk then processLines (splitNl chunk) else chunk

/-- The final accumulated content after feeding a sequence of decoded chunk
strings through the groq branch of the loop (the `requestAnimationFrame`
micro-batching only affects when the UI sees the content; the final content
is the concatenation of the chunks' contributions). -/
def runGroqChunksL (chunks : List (List Char)) : List Char :=
  chunks.foldl (fun acc c => acc ++ processChunkL c) []

/-- String-level wrapper of `processChunkL`. -/
def processGroqChunk (chunk : String) : String :=
  ⟨processChunkL chunk.data⟩

/-- String-level wrapper of `runGroqChunksL`. -/
def runGroqChunks (chunks : List String) : String :=
  ⟨runGroqChunksL (chunks.map String.data)⟩

/-! The raw-mode byte decoding of the loop:
`decoder.decode(value, { stream: true })` with a `TextDecoder`, which decodes
each chunk's complete UTF-8 sequences and holds back an incomplete trailing
sequence until the next chunk.  Bytes and code points are naturals; the
decoded content is the list of code points. -/

/-- The number of bytes a UTF-8 sequence occupies, from its lead byte (bytes
`0x80`–`0xBF` are invalid as lead bytes; the decoder would consume one byte
and emit a replacement, which the well-formed-stream theorems never hit). -/
def expLen (b : Nat) : Nat :=
  if b < 0x80 then 1
  else if b < 0xC0 then 1
  else if b < 0xE0 then 2
  else if b < 0xF0 then 3
  else 4

theorem expLen_pos (b : Nat) : 0 < expLen b := by
  unfold expLen
  split_ifs <;> omega

/-- UTF-8 encoding of one code point (arithmetic form of the standard
byte layout). -/
def utf8EncodeCp (n : Nat) : List Nat :=
  if n < 0x80 then [n]
  else if n < 0x800 then [0xC0 + n / 64, 0x80 + n % 64]
  else if n < 0x10000 then
    [0xE0 + n / 4096, 0x80 + n / 64 % 64, 0x80 + n % 64]
  else
    [0xF0 + n / 262144, 0x80 + n / 4096 % 64, 0x80 + n / 64 % 64,
      0x80 + n % 64]

/-- UTF-8 encoding of a sequence of code points. -/
def utf8Encode (cps : List Nat) : List Nat :=
  (cps.map utf8EncodeCp).flatten

/-- Decode one complete UTF-8 sequence (inverse arithmetic of
`utf8EncodeCp`; invalid shapes give the replacement code point). -/
def decodeCp : List Nat → Nat
  | [b] => b
  | [b0, b1] => (b0 - 0xC0) * 64 + (b1 - 0x80)
  | [b0, b1, b2] => (b0 - 0xE0) * 4096 + (b1 - 0x80) * 64 + (b2 - 0x80)
  | [b0, b1, b2, b3] =>
    (b0 - 0xF0) * 262144 + (b1 - 0x80) * 4096 + (b2 - 0x80) * 64 + (b3 - 0x80)
  | _ => 0xFFFD

/-- Decode every complete sequence at the front of the buffer, returning the
decoded code points (appended to `acc`) and the incomplete trailing bytes the
decoder keeps for the next chunk. -/
def decodeAvail (buf : List Nat) (acc : List Nat) : List Nat × List Nat :=
  match buf with
  | [] => (acc, [])
  | b :: rest =>
    if (b :: rest).length < expLen b then (acc, b :: rest)
    else
      decodeAvail ((b :: rest).drop (expLen b))
        (acc ++ [decodeCp ((b :: rest).take (expLen b))])
termination_by buf.length
decreasing_by
  simp only [List.length_drop]
  have := expLen_pos b
  simp only [List.length_cons] at *
  omega

/-- Feed byte chunks through the incremental decoder, carrying the pending
incomplete sequence between chunks exactly as `TextDecoder` with
`stream: true` does. -/
def feedChunks : List (List Nat) → List Nat → List Nat → List Nat × List Nat
  | [], pending, acc => (acc, pending)
  | c :: cs, pending, acc =>
    let r := decodeAvail (pending ++ c) []
    feedChunks cs r.2 (acc ++ r.1)

/-- The decoded content of a chunked raw-mode stream: all code points decoded
across the chunk sequence (the loop never flushes after `done`, so trailing
incomplete bytes are dropped; a well-formed stream has none). -/
def decodeStream (chunks : List (List Nat)) : List Nat :=
  (feedChunks chunks [] []).1

theorem utf8Encode_nil : utf8Encode [] = [] := rfl

theorem utf8Encode_cons (n : Nat) (cps : List Nat) :
    utf8Encode (n :: cps) = utf8EncodeCp n ++ utf8Encode cps := by
  simp [utf8Encode]

theorem utf8EncodeCp_ne_nil (n : Nat) : utf8EncodeCp n ≠ [] := by
  unfold utf8EncodeCp
  split_ifs <;> simp

theorem utf8Encode_eq_nil {cps : List Nat} (h : utf8Encode cps = []) :
    cps = [] := by
  cases cps with
  | nil => rfl
  | cons n rest =>
    rw [utf8Encode_cons] at h
    exact absurd (List.append_eq_nil.mp h).1 (utf8EncodeCp_ne_nil n)

/-- Decoding inverts encoding on any code point below `0x110000`. -/
theorem decodeCp_utf8EncodeCp {n : Nat} (h : n < 1114112) :
    decodeCp (utf8EncodeCp n) = n := by
  unfold utf8EncodeCp
  split_ifs with h1 h2 h3
  · simp [decodeCp]
  · simp only [decodeCp]
    omega
  · simp only [decodeCp]
    have e1 : n / 4096 = n / 64 / 64 := by
      rw [Nat.div_div_eq_div_mul]
    have e2 := Nat.div_add_mod n 64
    have e3 := Nat.div_add_mod (n / 64) 64
    omega
  · simp only [decodeCp]
    have e1 : n / 4096 = n / 64 / 64 := by
      rw [Nat.div_div_eq_div_mul]
    have e4 : n / 262144 = n / 4096 / 64 := by
      rw [Nat.div_div_eq_div_mul]
    have e2 := Nat.div_add_mod n 64
    have e3 := Nat.div_add_mod (n / 64) 64
    have e5 := Nat.div_add_mod (n / 4096) 64
    omega

/-- The lead byte of an encoded code point announces the full length of its
sequence. -/
theorem expLen_head_encode {n : Nat} (h : n < 1114112) :
    expLen ((utf8EncodeCp n).headD 0) = (utf8EncodeCp n).length := by
  unfold utf8EncodeCp
  split_ifs with h1 h2 h3
  · simp [expLen, h1]
  · have d1 : 2 ≤ n / 64 := by omega
    have d2 : n / 64 < 32 := by omega
    simp only [List.headD_cons, List.length_cons, List.length_nil]
    unfold expLen
    split_ifs <;> omega
  · have d2 : n / 4096 < 16 := by omega
    simp only [List.headD_cons, List.length_cons, List.length_nil]
    unfold expLen
    split_ifs <;> omega
  · simp only [List.headD_cons, List.length_cons, List.length_nil]
    unfold expLen
    split_ifs <;> omega

theorem utf8Encode_append (a b : List Nat) :
    utf8Encode (a ++ b) = utf8Encode a ++ utf8Encode b := by
  simp [utf8Encode]

theorem decodeAvail_nil (acc : List Nat) : decodeAvail [] acc = (acc, []) := by
  rw [decodeAvail]

theorem decodeAvail_cons (b : Nat) (rest acc : List Nat) :
    decodeAvail (b :: rest) acc =
      if (b :: rest).length < expLen b then (acc, b :: rest)
      else decodeAvail ((b :: rest).drop (expLen b))
        (acc ++ [decodeCp ((b :: rest).take (expLen b))]) := by
  rw [decodeAvail]

/-- A whole encoded code point at the front of the buffer is decoded in one
step. -/
theorem decodeAvail_enc_step {n : Nat} (h : n < 1114112)
    (rest acc : List Nat) :
    decodeAvail (utf8EncodeCp n ++ rest) acc = decodeAvail rest (acc ++ [n]) := by
  obtain ⟨b, bs, henc⟩ : ∃ b bs, utf8EncodeCp n = b :: bs := by
    cases hh : utf8EncodeCp n with
    | nil => exact absurd hh (utf8EncodeCp_ne_nil n)
    | cons b bs => exact ⟨b, bs, rfl⟩
  have hlen : expLen b = bs.length + 1 := by
    have h2 := expLen_head_encode h
    rw [henc] at h2
    simpa using h2
  rw [henc, List.cons_append, decodeAvail_cons]
  have hcond : ¬ (b :: (bs ++ rest)).length < expLen b := by
    rw [hlen]
    simp only [List.length_cons, List.length_append]
    omega
  rw [if_neg hcond]
  have htake : (b :: (bs ++ rest)).take (expLen b) = b :: bs := by
    rw [hlen]
    simp [List.take_append_eq_append_take]
  have hdrop : (b :: (bs ++ rest)).drop (expLen b) = rest := by
    rw [hlen]
    simp [List.drop_append_eq_append_drop]
  rw [htake, hdrop]
  have hdec : decodeCp (b :: bs) = n := by
    rw [← henc]
    exact decodeCp_utf8EncodeCp h
  rw [hdec]

/-- A strictly incomplete front of an encoded code point is held back
untouched. -/
theorem decodeAvail_incomplete {n : Nat} (h : n < 1114112) {r : List Nat}
    (hpre : ∃ u, u ≠ [] ∧ r ++ u = utf8EncodeCp n) (acc : List Nat) :
    decodeAvail r acc = (acc, r) := by
  obtain ⟨u, hu, hru⟩ := hpre
  cases r with
  | nil => exact decodeAvail_nil acc
  | cons b rb =>
    have h2 := expLen_head_encode h
    rw [← hru] at h2
    simp only [List.cons_append, List.headD_cons, List.length_append,
      List.length_cons] at h2
    have hul : 0 < u.length := List.length_pos.mpr hu
    have hlt : (b :: rb).length < expLen b := by
      simp only [List.length_cons]
      omega
    rw [decodeAvail_cons, if_pos hlt]

/-- Decoding a prefix of a well-formed encoded stream decodes the fully
covered code points and keeps a strictly incomplete remainder (if any). -/
theorem decodeAvail_of_prefix :
    ∀ (cps : List Nat), (∀ n ∈ cps, n < 1114112) →
    ∀ (buf t acc : List Nat), buf ++ t = utf8Encode cps →
    ∃ cs1 cs2 r, cps = cs1 ++ cs2 ∧
      decodeAvail buf acc = (acc ++ cs1, r) ∧
      utf8Encode cs1 ++ r = buf ∧
      (r = [] ∨ ∃ m ms u, cs2 = m :: ms ∧ u ≠ [] ∧ r ++ u = utf8EncodeCp m) := by
  intro cps
  induction cps with
  | nil =>
    intro _ buf t acc hbt
    rw [utf8Encode_nil] at hbt
    obtain ⟨hbuf, -⟩ := List.append_eq_nil.mp hbt
    subst hbuf
    exact ⟨[], [], [], rfl, by simpa using decodeAvail_nil acc, rfl, Or.inl rfl⟩
  | cons m ms ih =>
    intro hval buf t acc hbt
    have hm : m < 1114112 := hval m (List.mem_cons_self m ms)
    rw [utf8Encode_cons] at hbt
    by_cases hlen : (utf8EncodeCp m).length ≤ buf.length
    · have htk : buf.take (utf8EncodeCp m).length = utf8EncodeCp m := by
        have h1 : (buf ++ t).take (utf8EncodeCp m).length =
            buf.take (utf8EncodeCp m).length := by
          simp [List.take_append_eq_append_take, Nat.sub_eq_zero_of_le hlen]
        have h2 : (utf8EncodeCp m ++ utf8Encode ms).take (utf8EncodeCp m).length
            = utf8EncodeCp m := by
          simp [List.take_append_eq_append_take]
        rw [hbt] at h1
        rw [← h1, h2]
      set buf' := buf.drop (utf8EncodeCp m).length with hbuf'
      have hbuf : buf = utf8EncodeCp m ++ buf' := by
        rw [← htk, hbuf']
        exact (List.take_append_drop _ _).symm
      have hbt' : buf' ++ t = utf8Encode ms := by
        have h3 : utf8EncodeCp m ++ (buf' ++ t) =
            utf8EncodeCp m ++ utf8Encode ms := by
          rw [← List.append_assoc, ← hbuf, hbt]
        exact List.append_cancel_left h3
      obtain ⟨cs1, cs2, r, hsplit, hda, henc1, hrcond⟩ :=
        ih (fun n hn => hval n (List.mem_cons_of_mem m hn)) buf' t (acc ++ [m])
          hbt'
      refine ⟨m :: cs1, cs2, r, by rw [hsplit, List.cons_append], ?_, ?_,
        hrcond⟩
      · rw [hbuf, decodeAvail_enc_step hm buf' acc, hda]
        simp
      · rw [utf8Encode_cons, hbuf, List.append_assoc, henc1]
    · push_neg at hlen
      have htk : buf = (utf8EncodeCp m).take buf.length := by
        have h1 : (buf ++ t).take buf.length = buf := by
          simp
        have h2 : (utf8EncodeCp m ++ utf8Encode ms).take buf.length =
            (utf8EncodeCp m).take buf.length := by
          simp [List.take_append_eq_append_take,
            Nat.sub_eq_zero_of_le (Nat.le_of_lt hlen)]
        rw [hbt] at h1
        exact h1.symm.trans h2
      have hu : buf ++ (utf8EncodeCp m).drop buf.length = utf8EncodeCp m := by
        calc buf ++ (utf8EncodeCp m).drop buf.length
            = (utf8EncodeCp m).take buf.length ++
              (utf8EncodeCp m).drop buf.length := by rw [← htk]
          _ = utf8EncodeCp m := List.take_append_drop _ _
      have hune : (utf8EncodeCp m).drop buf.length ≠ [] := by
        have : ((utf8EncodeCp m).drop buf.length).length =
            (utf8EncodeCp m).length - buf.length := List.length_drop _ _
        intro hcon
        rw [hcon] at this
        simp at this
        omega
      refine ⟨[], m :: ms, buf, by simp, ?_, by simp [utf8Encode_nil],
        Or.inr ⟨m, ms, _, rfl, hune, hu⟩⟩
      rw [decodeAvail_incomplete hm ⟨_, hune, hu⟩ acc]
      simp

/-- Feeding the chunks of a complete well-formed encoding decodes every code
point and ends with an empty pending buffer. -/
theorem feedChunks_complete :
    ∀ (chunks : List (List Nat)) (cps pending acc : List Nat),
    (∀ n ∈ cps, n < 1114112) →
    pending ++ chunks.flatten = utf8Encode cps →
    (pending = [] ∨
      ∃ m ms u, cps = m :: ms ∧ u ≠ [] ∧ pending ++ u = utf8EncodeCp m) →
    feedChunks chunks pending acc = (acc ++ cps, []) := by
  intro chunks
  induction chunks with
  | nil =>
    intro cps pending acc hval hflat hpend
    simp only [List.flatten_nil, List.append_nil] at hflat
    rcases hpend with hpend | ⟨m, ms, u, hcps, hu, hpu⟩
    · subst hpend
      have : cps = [] := utf8Encode_eq_nil hflat.symm
      subst this
      simp [feedChunks]
    · exfalso
      have h1 : (utf8EncodeCp m).length = pending.length + u.length := by
        rw [← hpu]
        simp
      have h2 : pending.length =
          (utf8EncodeCp m).length + (utf8Encode ms).length := by
        rw [hcps, utf8Encode_cons] at hflat
        have := congrArg List.length hflat
        simpa using this
      have hul : 0 < u.length := List.length_pos.mpr hu
      omega
  | cons c cs ih =>
    intro cps pending acc hval hflat hpend
    have hbt : (pending ++ c) ++ cs.flatten = utf8Encode cps := by
      rw [List.append_assoc, ← List.flatten_cons, hflat]
    obtain ⟨cs1, cs2, r, hsplit, hda, henc1, hrcond⟩ :=
      decodeAvail_of_prefix cps hval (pending ++ c) cs.flatten [] hbt
    have hval2 : ∀ n ∈ cs2, n < 1114112 := by
      intro n hn
      exact hval n (by rw [hsplit]; exact List.mem_append_right _ hn)
    have henc2 : r ++ cs.flatten = utf8Encode cs2 := by
      have h4 : utf8Encode cs1 ++ (r ++ cs.flatten) =
          utf8Encode cs1 ++ utf8Encode cs2 := by
        rw [← List.append_assoc, henc1, hbt, hsplit, utf8Encode_append]
      exact List.append_cancel_left h4
    have hstep : feedChunks (c :: cs) pending acc =
        feedChunks cs (decodeAvail (pending ++ c) []).2
          (acc ++ (decodeAvail (pending ++ c) []).1) := rfl
    rw [hstep, hda]
    simp only [List.nil_append]
    rw [ih cs2 r (acc ++ cs1) hval2 henc2 hrcond]
    simp [hsplit, List.append_assoc]

/-- Raw-mode split invariance: however a well-formed UTF-8 byte stream is cut
into chunks, the incremental decode of the chunk sequence recovers exactly
the encoded code points. -/
theorem decodeStream_eq_of_encode (cps : List Nat)
    (chunks : List (List Nat)) (hval : ∀ n ∈ cps, n < 1114112)
    (hflat : chunks.flatten = utf8Encode cps) :
    decodeStream chunks = cps := by
  unfold decodeStream
  rw [feedChunks_complete chunks cps [] [] hval (by simpa using hflat)
    (Or.inl rfl)]
  simp

/-! The request validation and dispatch of the route handlers
(`src/app/api/pitch/groq/route.ts` and its openai/anthropic twins, and
`src/app/api/judge/route.ts`). -/

/-- A JSON value as the handlers inspect it: only its type tag and (for
strings/numbers) its content matter to the checks performed. -/
inductive JsonValue where
  | str (s : String)
  | num (q : ℚ)
  | boolean (b : Bool)
  | null
deriving DecidableEq, Repr

/-- JavaScript truthiness of a field access `body.x`: an absent field
(`undefined`), the empty string, `0`, `false` and `null` are falsy. -/
def fieldTruthy : Option JsonValue → Bool
  | none => false
  | some (.str s) => decide (s ≠ "")
  | some (.num q) => decide (q ≠ 0)
  | some (.boolean b) => b
  | some .null => false

/-- `typeof body.x === 'string'`. -/
def fieldIsString : Option JsonValue → Bool
  | some (.str _) => true
  | _ => false

/-- The string content of a field known to be a string (`""` otherwise). -/
def strOf : Option JsonValue → String
  | some (.str s) => s
  | _ => ""

/-- A parsed pitch request body: each expected field is present with some
JSON value or absent. -/
structure PitchBody where
  concept : Option JsonValue
  userGroup : Option JsonValue
deriving DecidableEq, Repr

/-- `validateRequest` of the pitch routes, returning the error message of the
first failing check (`none` when valid): missing/falsy/non-string `concept`,
then `userGroup`, then whitespace-only `concept`, then whitespace-only
`userGroup`. -/
def validateRequest (b : PitchBody) : Option String :=
  if !(fieldTruthy b.concept && fieldIsString b.concept) then
    some "Missing or invalid concept field"
  else if !(fieldTruthy b.userGroup && fieldIsString b.userGroup) then
    some "Missing or invalid userGroup field"
  else if (jsTrimS (strOf b.concept)).length = 0 then
    some "Concept cannot be empty"
  else if (jsTrimS (strOf b.userGroup)).length = 0 then
    some "User group cannot be empty"
  else none

/-- The error envelope built by `createErrorResponse` of the route handlers
(`timestamp` abstracted away as elsewhere). -/
structure ErrorEnvelope where
  error : String
  message : String
  code : String
  retryable : Bool
deriving DecidableEq, Repr

/-- What a route `POST` does with a request, up to the point of contacting the
upstream model: an error response with an HTTP status, or an upstream call
carrying the trimmed `concept` and `userGroup`. -/
inductive RouteResult where
  | errorResponse (status : Nat) (env : ErrorEnvelope)
  | upstreamCall (concept userGroup : String)
deriving DecidableEq, Repr

/-- The HTTP status of a route result (`none` when the request reached the
upstream call). -/
def routeStatus : RouteResult → Option Nat
  | .errorResponse status _ => some status
  | .upstreamCall _ _ => none

/-- The pre-upstream phase of `POST` in `src/app/api/pitch/groq/route.ts`
(identical in the openai/anthropic routes, with the provider's key and name):
missing API key → 500 `MISSING_API_KEY`; unparsable JSON body → 400
`INVALID_JSON`; failed validation → 400 `VALIDATION_ERROR`; otherwise the
upstream streaming call with the trimmed fields. -/
def pitchRoutePOST (apiKeyConfigured : Bool) (body : Option PitchBody) :
    RouteResult :=
  if !apiKeyConfigured then
    .errorResponse 500
      ⟨"Configuration error", "Groq API key not configured",
        "MISSING_API_KEY", false⟩
  else
    match body with
    | none =>
      .errorResponse 400
        ⟨"Invalid request", "Request body must be valid JSON",
          "INVALID_JSON", false⟩
    | some b =>
      match validateRequest b with
      | some err =>
        .errorResponse 400
          ⟨"Validation error", err, "VALIDATION_ERROR", false⟩
      | none =>
        .upstreamCall (jsTrimS (strOf b.concept)) (jsTrimS (strOf b.userGroup))

/-- The `pitches` object of a judge request (each provider's field present
with some JSON value or absent); a missing or non-object `pitches` is `none`
at the `JudgeBody` level. -/
structure PitchesObj where
  groq : Option JsonValue
  openai : Option JsonValue
  anthropic : Option JsonValue
deriving DecidableEq, Repr

/-- A parsed judge request body. -/
structure JudgeBody where
  concept : Option JsonValue
  userGroup : Option JsonValue
  pitches : Option PitchesObj
deriving DecidableEq, Repr

/-- The per-provider pitch field of a `pitches` object. -/
def pitchField (p : PitchesObj) : AIProvider → Option JsonValue
  | .groq => p.groq
  | .openai => p.openai
  | .anthropic => p.anthropic

/-- One provider's checks inside the judge route's `validateRequest` loop:
missing/falsy/non-string pitch, then whitespace-only pitch. -/
def validatePitchOf (p : PitchesObj) (provider : AIProvider) : Option String :=
  if !(fieldTruthy (pitchField p provider) &&
      fieldIsString (pitchField p provider)) then
    some ("Missing or invalid pitch for " ++ providerName provider)
  else if (jsTrimS (strOf (pitchField p provider))).length = 0 then
    some ("Empty pitch content for " ++ providerName provider)
  else none

/-- `validateRequest` of `src/app/api/judge/route.ts`: `concept` and
`userGroup` type checks, the `pitches` object check, the per-provider loop in
the order groq, openai, anthropic, then the emptiness checks on `concept` and
`userGroup`. -/
def validateJudgeRequest (b : JudgeBody) : Option String :=
  if !(fieldTruthy b.concept && fieldIsString b.concept) then
    some "Missing or invalid concept field"
  else if !(fieldTruthy b.userGroup && fieldIsString b.userGroup) then
    some "Missing or invalid userGroup field"
  else
    match b.pitches with
    | none => some "Missing or invalid pitches field"
    | some p =>
      match validatePitchOf p .groq with
      | some err => some err
      | none =>
        match validatePitchOf p .openai with
        | some err => some err
        | none =>
          match validatePitchOf p .anthropic with
          | some err => some err
          | none =>
            if (jsTrimS (strOf b.concept)).length = 0 then
              some "Concept cannot be empty"
            else if (jsTrimS (strOf b.userGroup)).length = 0 then
              some "User group cannot be empty"
            else none

/-- The pre-upstream phase of `POST` in `src/app/api/judge/route.ts`
(`upstreamCall` stands for the `generateText` judge call on the trimmed
fields). -/
def judgeRoutePOST (apiKeyConfigured : Bool) (body : Option JudgeBody) :
    RouteResult :=
  if !apiKeyConfigured then
    .errorResponse 500
      ⟨"Configuration error", "Anthropic API key not configured",
        "MISSING_API_KEY", false⟩
  else
    match body with
    | none =>
      .errorResponse 400
        ⟨"Invalid request", "Request body must be valid JSON",
          "INVALID_JSON", false⟩
    | some b =>
      match validateJudgeRequest b with
      | some err =>
        .errorResponse 400
          ⟨"Validation error", err, "VALIDATION_ERROR", false⟩
      | none =>
        .upstreamCall (jsTrimS (strOf b.concept)) (jsTrimS (strOf b.userGroup))

/-! The fallback chain of `src/lib/api-client.ts`. -/

/-- `executeWithFallbacks` of `src/lib/error-handling.ts`, applied to
strategies already listed in priority order (the source sorts by the
`priority` field; the call sites pass priorities 1 and 2 in order): try each
strategy, return the first success, and after all fail throw the error of the
last one.  (With no strategies the source throws an undefined error; the
call sites always pass two, and the fallback error below is unreachable.) -/
def executeWithFallbacks {A : Type} : List (Except APIError A) →
    Except APIError A
  | [] =>
    .error (createAPIError "UNKNOWN_ERROR" "An unknown error occurred" none
      false)
  | [s] =>
    match s with
    | .ok a => .ok a
    | .error e => .error e
  | s :: rest =>
    match s with
    | .ok a => .ok a
    | .error _ => executeWithFallbacks rest

/-- The outcome of one judge-client strategy
(`generateJudgeVerdictWithFallbacks` in `src/lib/api-client.ts`): either the
`judge-api` strategy's transformed response (whose exact shape no claim
inspects; it is summarized by its `winner` field) or the `judge-mock`
strategy's verdict built by `generateMockJudgeVerdict`. -/
inductive JudgeStrategyResult where
  | apiVerdict (winner : String)
  | mockVerdict (v : MockVerdict)
deriving DecidableEq, Repr

/-- `generateJudgeVerdictWithFallbacks` of `src/lib/api-client.ts`: run
`executeWithFallbacks` over the `judge-api` strategy (priority 1, outcome
given as `apiOutcome`) and the `judge-mock` strategy (priority 2, which never
rejects: `generateMockJudgeResponse` only simulates a delay and wraps
`generateMockJudgeVerdict` on the current random draws). -/
def generateJudgeVerdictWithFallbacks
    (apiOutcome : Except APIError JudgeStrategyResult) (r1 r2 r3 : Nat) :
    Except APIError JudgeStrategyResult :=
  executeWithFallbacks
    [apiOutcome, .ok (.mockVerdict (generateMockJudgeVerdict r1 r2 r3))]

/-! Helper lemmas. -/

/-- The position of a provider in the fixed enumeration groq, openai,
anthropic (the `Object.entries` order of the scores objects). -/
def providerIdx : AIProvider → Nat
  | .groq => 0
  | .openai => 1
  | .anthropic => 2

theorem withRetryGo_unfold {R : Type} (op : Nat → OpOutcome R)
    (mr rd bm a : Nat) :
    withRetryGo op mr rd bm a =
      match op a with
      | .ok r => ⟨.ok r, a + 1, [], []⟩
      | .fail e =>
        if mr ≤ a ∨ (parseAPIError e none).retryable = false then
          ⟨.error (parseAPIError e none), a + 1, [], []⟩
        else
          ⟨(withRetryGo op mr rd bm (a + 1)).result,
            (withRetryGo op mr rd bm (a + 1)).attemptsMade,
            (parseAPIError e none, a + 1) ::
              (withRetryGo op mr rd bm (a + 1)).observerCalls,
            (rd * bm ^ a) :: (withRetryGo op mr rd bm (a + 1)).delays⟩ := by
  rw [withRetryGo]
  cases op a <;> simp

theorem streamPitchFrom_unfold (provider : AIProvider)
    (outcomes : Nat → StreamOutcome) (retryCount : Nat) :
    streamPitchFrom provider outcomes retryCount =
      match outcomes retryCount with
      | .ok content => some ⟨content, true, none⟩
      | .abort => none
      | .fail code message =>
        let apiError := streamPitchApiError provider code message retryCount
        if retryCount < 3 then
          streamPitchFrom provider outcomes (retryCount + 1)
        else some ⟨"", true, some apiError⟩ := by
  rw [streamPitchFrom]
  cases outcomes retryCount <;> simp

theorem clampScore_bounds (q : ℚ) :
    1 ≤ clampScore q ∧ clampScore q ≤ 10 := by
  unfold clampScore
  exact ⟨le_max_left 1 _, max_le (by norm_num) (min_le_left _ _)⟩

/-- The mock winner's score is the maximum, and on ties the winner is the
latest provider in the enumeration achieving it. -/
theorem reduceWinner_spec (s : MockScores) :
    mscore s (reduceWinner s) = max (max s.groq s.openai) s.anthropic ∧
    ∀ p, mscore s p = max (max s.groq s.openai) s.anthropic →
      providerIdx p ≤ providerIdx (reduceWinner s) := by
  have hred : reduceWinner s =
      if s.openai < s.groq then
        (if s.anthropic < s.groq then AIProvider.groq else AIProvider.anthropic)
      else
        (if s.anthropic < s.openai then AIProvider.openai
         else AIProvider.anthropic) := by
    unfold reduceWinner
    by_cases h1 : s.openai < s.groq <;>
      simp [mscore, gt_iff_lt, h1]
  rw [hred]
  split_ifs with h1 h2 h2 <;> constructor <;>
    first
    | (simp only [mscore]; omega)
    | (intro p hp; cases p <;> simp only [mscore, providerIdx] at hp ⊢ <;>
        omega)

/-! The claims. -/

/-- C1 (counterexample): after the initial attempt and all 3 retries fail,
`streamPitch` leaves the groq slot with `content = ""` — not with the Mock
Fallback Generator's output, which is a nonempty template. -/
theorem C1_counterexample :
    streamPitchFrom AIProvider.groq (fun _ => StreamOutcome.fail none none) 0 =
      some ⟨"", true,
        some (streamPitchApiError AIProvider.groq none none 3)⟩ ∧
    generateMockPitch "AI-powered productivity app" "remote workers"
      AIProvider.groq ≠ "" := by
  constructor
  · rw [streamPitchFrom_unfold]
    norm_num
    rw [streamPitchFrom_unfold]
    norm_num
    rw [streamPitchFrom_unfold]
    norm_num
    rw [streamPitchFrom_unfold]
    norm_num
  · decide

/-- C1 (amended): for every provider and every round in which the provider's
endpoint fails on the initial attempt and on all 3 retries, `streamPitch`
leaves the slot terminal (`isComplete = true`) with the last classified error
attached — but with `content` equal to the empty string, not to
`generateMockPitch`'s output (the mock fallback is used only by the
`APIClient` fallback path, which `battle-arena.tsx` does not call). -/
theorem C1_theorem (provider : AIProvider) (outcomes : Nat → StreamOutcome)
    (c3 m3 : Option String)
    (hfail : ∀ i, i < 3 → ∃ c m, outcomes i = StreamOutcome.fail c m)
    (h3 : outcomes 3 = StreamOutcome.fail c3 m3) :
    streamPitchFrom provider outcomes 0 =
      some ⟨"", true, some (streamPitchApiError provider c3 m3 3)⟩ := by
  obtain ⟨c0, m0, h0⟩ := hfail 0 (by norm_num)
  obtain ⟨c1, m1, h1⟩ := hfail 1 (by norm_num)
  obtain ⟨c2, m2, h2⟩ := hfail 2 (by norm_num)
  rw [streamPitchFrom_unfold, h0]
  norm_num
  rw [streamPitchFrom_unfold, h1]
  norm_num
  rw [streamPitchFrom_unfold, h2]
  norm_num
  rw [streamPitchFrom_unfold, h3]
  norm_num

/-- Witness for C1: a concrete all-failing outcome sequence. -/
theorem C1_witness :
    streamPitchFrom AIProvider.openai
        (fun _ => StreamOutcome.fail (some "HTTP 500: error") none) 0 =
      some ⟨"", true,
        some (streamPitchApiError AIProvider.openai (some "HTTP 500: error")
          none 3)⟩ :=
  C1_theorem AIProvider.openai _ _ _
    (fun _ _ => ⟨some "HTTP 500: error", none, rfl⟩) rfl

/-- C2: three completion signals arriving in the same event-loop tick collapse
through the 100 ms debounce to exactly one `checkAllComplete` execution, and
that execution invokes the round's completion callback (with the three
contents) precisely when all three slots are complete and each content trims
to more than 50 characters. -/
theorem C2_theorem (t : Nat) (ps : PitchState) :
    executedChecks [t, t, t] = 1 ∧
    ((checkAllComplete ps).isSome = true ↔
      (ps.groq.isComplete = true ∧ ps.openai.isComplete = true ∧
        ps.anthropic.isComplete = true ∧
        50 < (jsTrimS ps.groq.content).length ∧
        50 < (jsTrimS ps.openai.content).length ∧
        50 < (jsTrimS ps.anthropic.content).length)) ∧
    (checkAllComplete ps = none ∨
      checkAllComplete ps =
        some (ps.groq.content, ps.openai.content, ps.anthropic.content)) := by
  have ht : t < t + 100 := by omega
  refine ⟨by simp [executedChecks, ht], ?_, ?_⟩
  · unfold checkAllComplete
    split_ifs with h
    · simp only [Bool.and_eq_true, hasValidContent, decide_eq_true_eq] at h
      simp only [Option.isSome_some, true_iff]
      tauto
    · simp only [Bool.and_eq_true, hasValidContent, decide_eq_true_eq,
        not_and] at h
      simp only [Option.isSome_none, Bool.false_eq_true, false_iff]
      intro hcon
      tauto
  · unfold checkAllComplete
    split_ifs <;> simp

/-- C3 (counterexample): `parseAPIError` classifies an `AbortError` as a
retryable `TIMEOUT_ERROR` — cancellation is not distinguished from failure by
the classifier, and an operation that keeps rejecting with `AbortError` is
retried by `withRetry` to the full 4 attempts instead of being short-circuited. -/
theorem C3_counterexample :
    (parseAPIError RawError.abortError none).code = "TIMEOUT_ERROR" ∧
    (parseAPIError RawError.abortError none).retryable = true ∧
    (withRetry (R := Unit)
      (fun _ => OpOutcome.fail RawError.abortError)).attemptsMade = 4 := by
  refine ⟨rfl, rfl, ?_⟩
  unfold withRetry RETRY_CONFIG_maxRetries RETRY_CONFIG_retryDelay
    RETRY_CONFIG_backoffMultiplier
  rw [withRetryGo_unfold]
  norm_num [parseAPIError, createTimeoutError, createAPIError]
  rw [withRetryGo_unfold]
  norm_num [parseAPIError, createTimeoutError, createAPIError]
  rw [withRetryGo_unfold]
  norm_num [parseAPIError, createTimeoutError, createAPIError]
  rw [withRetryGo_unfold]
  norm_num [parseAPIError, createTimeoutError, createAPIError]

/-- C3 (amended): in `streamPitch` an `AbortError` is recognized by name
before classification and short-circuits the retry recursion — no retry, no
slot mutation, no user-visible error; `parseAPIError` itself, however, maps
`AbortError` to the retryable timeout error (see the counterexample), so the
distinction lives in `streamPitch`'s catch block, not in the classifier. -/
theorem C3_theorem :
    (∀ (provider : AIProvider) (outcomes : Nat → StreamOutcome) (rc : Nat),
      outcomes rc = StreamOutcome.abort →
      streamPitchFrom provider outcomes rc = none) ∧
    parseAPIError RawError.abortError none = createTimeoutError none := by
  refine ⟨?_, rfl⟩
  intro provider outcomes rc h
  rw [streamPitchFrom_unfold, h]

/-- Witness for C3: an aborted fetch leaves no slot update at all. -/
theorem C3_witness :
    streamPitchFrom AIProvider.groq (fun _ => StreamOutcome.abort) 0 = none ∧
    parseAPIError RawError.abortError none = createTimeoutError none :=
  ⟨C3_theorem.1 AIProvider.groq _ 0 rfl, C3_theorem.2⟩

/-- C4 (amended, raw mode): however a well-formed UTF-8 byte stream is split
into chunks, the incremental decode (`TextDecoder` with `stream: true`)
recovers exactly the encoded code points — a multi-byte character split
across chunk boundaries is buffered and decoded once. -/
theorem C4_theorem (cps : List Nat) (chunks : List (List Nat))
    (hval : ∀ n ∈ cps, n < 1114112)
    (hflat : chunks.flatten = utf8Encode cps) :
    decodeStream chunks = cps :=
  decodeStream_eq_of_encode cps chunks hval hflat

/-- Witness for C4: `é` (U+00E9, bytes `C3 A9`) split across two chunks
decodes to exactly the one code point 233. -/
theorem C4_witness :
    (233 : Nat) < 1114112 ∧
    ([[195], [169]] : List (List Nat)).flatten = utf8Encode [233] ∧
    decodeStream [[195], [169]] = [233] :=
  ⟨by norm_num, by decide,
    C4_theorem [233] [[195], [169]] (by decide) (by decide)⟩

/-- C4 (counterexample, event mode): a `data: ` line split across two chunk
boundaries is not reassembled — the fragment chunks produce garbled content
(the first half is dropped as invalid JSON, the second half is appended
verbatim through the raw branch), unlike the unsplit stream. -/
theorem C4_counterexample :
    runGroqChunks ["data: \x7b\"type\":\"text\",\"content\":\"hello\"\x7d\n"]
      = "hello" ∧
    runGroqChunks
        ["data: \x7b\"ty", "pe\":\"text\",\"content\":\"hello\"\x7d\n"]
      = "pe\":\"text\",\"content\":\"hello\"\x7d\n" ∧
    runGroqChunks
        ["data: \x7b\"ty", "pe\":\"text\",\"content\":\"hello\"\x7d\n"]
      ≠ runGroqChunks
        ["data: \x7b\"type\":\"text\",\"content\":\"hello\"\x7d\n"] :=
  ⟨by decide, by decide, by decide⟩

/-- C5: `normalizeScores` clamps every upstream score into `[1, 10]` after
rounding to the nearest integer, whatever the judge model claimed; in
particular `(15, -2, 4.6)` sanitizes to `(10, 1, 5)`. -/
theorem C5_theorem :
    (∀ q : ℚ, 1 ≤ clampScore q ∧ clampScore q ≤ 10) ∧
    normalizeScores ⟨15, -2, 4.6⟩ = ⟨10, 1, 5⟩ := by
  refine ⟨clampScore_bounds, ?_⟩
  norm_num [normalizeScores, clampScore, jsRound]

/-- C6 (counterexample): the judge route passes the upstream `winner` through
verbatim, so a validated upstream result whose `winner` is not the provider
with the maximum score produces a `VerdictResult` violating the claimed
invariant: winner "groq" with score 3 while openai scores 9. -/
theorem C6_counterexample :
    validateJudgeResponse ⟨⟨3, 9, 5⟩, "groq", "x"⟩ = true ∧
    (judgePOSTVerdict ⟨⟨3, 9, 5⟩, "groq", "x"⟩).winner = "groq" ∧
    (judgePOSTVerdict ⟨⟨3, 9, 5⟩, "groq", "x"⟩).scores.groq <
      (judgePOSTVerdict ⟨⟨3, 9, 5⟩, "groq", "x"⟩).scores.openai :=
  ⟨by decide, rfl,
    by norm_num [judgePOSTVerdict, normalizeScores, clampScore, jsRound]⟩

/-- C6 (amended): every produced verdict has three integer scores in `[1,10]`
and a winner drawn from the three provider keys; on the judge path the winner
is the upstream model's claim (only validated to be one of the three keys, not
recomputed), while the mock fallback's winner attains the maximum score with
ties resolved toward the *last* provider in the groq, openai, anthropic
enumeration. -/
theorem C6_theorem :
    (∀ r : UpstreamJudgeResult, validateJudgeResponse r = true →
      (1 ≤ (judgePOSTVerdict r).scores.groq ∧
        (judgePOSTVerdict r).scores.groq ≤ 10) ∧
      (1 ≤ (judgePOSTVerdict r).scores.openai ∧
        (judgePOSTVerdict r).scores.openai ≤ 10) ∧
      (1 ≤ (judgePOSTVerdict r).scores.anthropic ∧
        (judgePOSTVerdict r).scores.anthropic ≤ 10) ∧
      ((judgePOSTVerdict r).winner = "groq" ∨
        (judgePOSTVerdict r).winner = "openai" ∨
        (judgePOSTVerdict r).winner = "anthropic")) ∧
    (∀ r1 r2 r3 : Nat, r1 < 3 → r2 < 3 → r3 < 3 →
      (∀ p, 7 ≤ mscore (generateMockJudgeVerdict r1 r2 r3).scores p ∧
        mscore (generateMockJudgeVerdict r1 r2 r3).scores p ≤ 9) ∧
      mscore (generateMockJudgeVerdict r1 r2 r3).scores
          (generateMockJudgeVerdict r1 r2 r3).winner =
        max (max (r1 + 7) (r2 + 7)) (r3 + 7) ∧
      (∀ p, mscore (generateMockJudgeVerdict r1 r2 r3).scores p =
          max (max (r1 + 7) (r2 + 7)) (r3 + 7) →
        providerIdx p ≤
          providerIdx (generateMockJudgeVerdict r1 r2 r3).winner)) := by
  constructor
  · intro r hv
    have hw : r.winner = "groq" ∨ r.winner = "openai" ∨
        r.winner = "anthropic" := by
      simp only [validateJudgeResponse, Bool.and_eq_true, Bool.or_eq_true,
        decide_eq_true_eq] at hv
      tauto
    simp only [judgePOSTVerdict, normalizeScores]
    exact ⟨clampScore_bounds _, clampScore_bounds _, clampScore_bounds _, hw⟩
  · intro r1 r2 r3 h1 h2 h3
    have hs : (generateMockJudgeVerdict r1 r2 r3).scores =
        ⟨r1 + 7, r2 + 7, r3 + 7⟩ := rfl
    have hwin : (generateMockJudgeVerdict r1 r2 r3).winner =
        reduceWinner ⟨r1 + 7, r2 + 7, r3 + 7⟩ := rfl
    obtain ⟨hmax, hlast⟩ := reduceWinner_spec ⟨r1 + 7, r2 + 7, r3 + 7⟩
    refine ⟨?_, ?_, ?_⟩
    · intro p
      rw [hs]
      cases p <;> simp only [mscore] <;> omega
    · rw [hs, hwin]
      exact hmax
    · intro p hp
      rw [hwin]
      rw [hs] at hp
      exact hlast p hp

/-- Witness for C6: a validated upstream result and a concrete draw triple. -/
theorem C6_witness :
    ((judgePOSTVerdict ⟨⟨5, 7, 9⟩, "anthropic", "ok"⟩).winner = "groq" ∨
      (judgePOSTVerdict ⟨⟨5, 7, 9⟩, "anthropic", "ok"⟩).winner = "openai" ∨
      (judgePOSTVerdict ⟨⟨5, 7, 9⟩, "anthropic", "ok"⟩).winner =
        "anthropic") ∧
    mscore (generateMockJudgeVerdict 0 1 2).scores
        (generateMockJudgeVerdict 0 1 2).winner =
      max (max (0 + 7) (1 + 7)) (2 + 7) :=
  ⟨(C6_theorem.1 ⟨⟨5, 7, 9⟩, "anthropic", "ok"⟩ (by decide)).2.2.2,
    (C6_theorem.2 0 1 2 (by norm_num) (by norm_num) (by norm_num)).2.1⟩

/-- An operation that rejects on every attempt with a fetch `TypeError`
(classified as a retryable network error). -/
def alwaysFetchFail : Nat → OpOutcome Unit :=
  fun _ => OpOutcome.fail (RawError.typeErrorFetch "failed to fetch")

/-- C7 (counterexample): with the default configuration an always-failing
retryable operation is attempted 4 times (`maxRetries = 3` retries after the
initial attempt), not the claimed `maxAttempts = 3`. -/
theorem C7_counterexample :
    (withRetry alwaysFetchFail).attemptsMade = 4 ∧
    (withRetry alwaysFetchFail).attemptsMade ≠ 3 := by
  have h4 : (withRetry alwaysFetchFail).attemptsMade = 4 := by
    unfold withRetry RETRY_CONFIG_maxRetries RETRY_CONFIG_retryDelay
      RETRY_CONFIG_backoffMultiplier alwaysFetchFail
    rw [withRetryGo_unfold]
    norm_num [parseAPIError, createNetworkError, createAPIError]
    rw [withRetryGo_unfold]
    norm_num [parseAPIError, createNetworkError, createAPIError]
    rw [withRetryGo_unfold]
    norm_num [parseAPIError, createNetworkError, createAPIError]
    rw [withRetryGo_unfold]
    norm_num [parseAPIError, createNetworkError, createAPIError]
  exact ⟨h4, by rw [h4]; norm_num⟩

/-- C7 (amended): `withRetry` attempts the operation; on failure it classifies
the error with `parseAPIError`; a non-retryable classification or an
exhausted budget rethrows the final classified error; otherwise it calls the
observer with `(error, attemptNumber)` before waiting
`retryDelay * backoffMultiplier ^ attemptIndex` and retrying — with defaults
`retryDelay = 1000`, `backoffMultiplier = 2` and `maxRetries = 3`, i.e. up to
4 total attempts (not 3).  Stated on the four canonical behaviours: immediate
success; immediate non-retryable failure; one retryable failure then success;
retryable failure on every attempt. -/
theorem C7_theorem :
    (∀ (R : Type) (op : Nat → OpOutcome R) (r : R),
      op 0 = OpOutcome.ok r → withRetry op = ⟨Except.ok r, 1, [], []⟩) ∧
    (∀ (R : Type) (op : Nat → OpOutcome R) (e : RawError),
      op 0 = OpOutcome.fail e → (parseAPIError e none).retryable = false →
      withRetry op = ⟨Except.error (parseAPIError e none), 1, [], []⟩) ∧
    (∀ (R : Type) (op : Nat → OpOutcome R) (e : RawError) (r : R),
      op 0 = OpOutcome.fail e → (parseAPIError e none).retryable = true →
      op 1 = OpOutcome.ok r →
      withRetry op =
        ⟨Except.ok r, 2, [(parseAPIError e none, 1)], [1000]⟩) ∧
    (∀ (R : Type) (op : Nat → OpOutcome R) (e : RawError),
      (∀ i, i ≤ 3 → op i = OpOutcome.fail e) →
      (parseAPIError e none).retryable = true →
      withRetry op =
        ⟨Except.error (parseAPIError e none), 4,
          [(parseAPIError e none, 1), (parseAPIError e none, 2),
            (parseAPIError e none, 3)], [1000, 2000, 4000]⟩) := by
  refine ⟨?_, ?_, ?_, ?_⟩
  · intro R op r h
    unfold withRetry RETRY_CONFIG_maxRetries RETRY_CONFIG_retryDelay
      RETRY_CONFIG_backoffMultiplier
    rw [withRetryGo_unfold, h]
  · intro R op e h hr
    unfold withRetry RETRY_CONFIG_maxRetries RETRY_CONFIG_retryDelay
      RETRY_CONFIG_backoffMultiplier
    rw [withRetryGo_unfold, h]
    simp [hr]
  · intro R op e r h0 hr h1
    unfold withRetry RETRY_CONFIG_maxRetries RETRY_CONFIG_retryDelay
      RETRY_CONFIG_backoffMultiplier
    have hstep1 : withRetryGo op 3 1000 2 1 = ⟨Except.ok r, 2, [], []⟩ := by
      rw [withRetryGo_unfold, h1]
    rw [withRetryGo_unfold, h0]
    simp [hr, hstep1]
  · intro R op e hall hr
    unfold withRetry RETRY_CONFIG_maxRetries RETRY_CONFIG_retryDelay
      RETRY_CONFIG_backoffMultiplier
    have h3 : withRetryGo op 3 1000 2 3 =
        ⟨Except.error (parseAPIError e none), 4, [], []⟩ := by
      rw [withRetryGo_unfold, hall 3 (by norm_num)]
      simp
    have h2 : withRetryGo op 3 1000 2 2 =
        ⟨Except.error (parseAPIError e none), 4,
          [(parseAPIError e none, 3)], [4000]⟩ := by
      rw [withRetryGo_unfold, hall 2 (by norm_num)]
      simp [hr, h3]
    have h1 : withRetryGo op 3 1000 2 1 =
        ⟨Except.error (parseAPIError e none), 4,
          [(parseAPIError e none, 2), (parseAPIError e none, 3)],
          [2000, 4000]⟩ := by
      rw [withRetryGo_unfold, hall 1 (by norm_num)]
      simp [hr, h2]
    rw [withRetryGo_unfold, hall 0 (by norm_num)]
    simp [hr, h1]

/-- Witness for C7: an immediately succeeding operation and an always-failing
retryable one. -/
theorem C7_witness :
    withRetry (R := Nat) (fun _ => OpOutcome.ok 5) =
      ⟨Except.ok 5, 1, [], []⟩ ∧
    withRetry (R := Nat)
        (fun _ => OpOutcome.fail (RawError.httpResponse 503 none)) =
      ⟨Except.error (parseAPIError (RawError.httpResponse 503 none) none), 4,
        [(parseAPIError (RawError.httpResponse 503 none) none, 1),
          (parseAPIError (RawError.httpResponse 503 none) none, 2),
          (parseAPIError (RawError.httpResponse 503 none) none, 3)],
        [1000, 2000, 4000]⟩ :=
  ⟨C7_theorem.1 Nat _ 5 rfl,
    C7_theorem.2.2.2 Nat _ _ (fun _ _ => rfl) (by decide)⟩

/-- C8: when the `judge-api` strategy fails, `generateJudgeVerdictWithFallbacks`
still resolves — with the mock verdict, whose three scores lie in `[7, 9]` and
whose winner attains the maximum score; the verdict is a deterministic
function of the pitches and the three random draws. -/
theorem C8_theorem (e : APIError) (r1 r2 r3 : Nat)
    (h1 : r1 < 3) (h2 : r2 < 3) (h3 : r3 < 3) :
    generateJudgeVerdictWithFallbacks (Except.error e) r1 r2 r3 =
      Except.ok (.mockVerdict (generateMockJudgeVerdict r1 r2 r3)) ∧
    (∀ p, 7 ≤ mscore (generateMockJudgeVerdict r1 r2 r3).scores p ∧
      mscore (generateMockJudgeVerdict r1 r2 r3).scores p ≤ 9) ∧
    mscore (generateMockJudgeVerdict r1 r2 r3).scores
        (generateMockJudgeVerdict r1 r2 r3).winner =
      max (max (r1 + 7) (r2 + 7)) (r3 + 7) := by
  have hs : (generateMockJudgeVerdict r1 r2 r3).scores =
      ⟨r1 + 7, r2 + 7, r3 + 7⟩ := rfl
  have hwin : (generateMockJudgeVerdict r1 r2 r3).winner =
      reduceWinner ⟨r1 + 7, r2 + 7, r3 + 7⟩ := rfl
  refine ⟨rfl, ?_, ?_⟩
  · intro p
    rw [hs]
    cases p <;> simp only [mscore] <;> omega
  · rw [hs, hwin]
    exact (reduceWinner_spec ⟨r1 + 7, r2 + 7, r3 + 7⟩).1

/-- Witness for C8: a failing judge call with a concrete draw triple. -/
theorem C8_witness :
    generateJudgeVerdictWithFallbacks
        (Except.error (createNetworkError none)) 2 0 1 =
      Except.ok (.mockVerdict (generateMockJudgeVerdict 2 0 1)) ∧
    mscore (generateMockJudgeVerdict 2 0 1).scores
        (generateMockJudgeVerdict 2 0 1).winner =
      max (max (2 + 7) (0 + 7)) (1 + 7) :=
  ⟨(C8_theorem (createNetworkError none) 2 0 1 (by norm_num) (by norm_num)
      (by norm_num)).1,
    (C8_theorem (createNetworkError none) 2 0 1 (by norm_num) (by norm_num)
      (by norm_num)).2.2⟩

/-- C9 (counterexample): an event-mode line whose payload fails JSON parsing
is dropped — it contributes nothing to the content, not its text verbatim. -/
theorem C9_counterexample :
    processGroqChunk "data: notjson\n" = "" ∧
    processGroqChunk "data: notjson\n" ≠ "notjson" :=
  ⟨by decide, by decide⟩

/-- C9 (amended): inside the `data: ` line handling a payload that fails JSON
parsing is skipped (with a logged warning), contributing nothing; verbatim
plain-text appending happens only for whole chunks that do not contain
`'data: '` at all, through the raw-text branch. -/
theorem C9_theorem :
    (∀ chunk : List Char, hasSub dataMarker chunk = false →
      processChunkL chunk = chunk) ∧
    (∀ (js : List Char) (rest : List (List Char)),
      trimL js ≠ [] → trimL js ≠ doneMarker →
      sseEventOf (trimL js) = SSEEvent.invalid →
      processLines ((dataMarker ++ js) :: rest) = processLines rest) := by
  constructor
  · intro chunk h
    simp [processChunkL, h]
  · intro js rest h1 h2 h3
    have hpre : dataMarker.isPrefixOf (dataMarker ++ js) = true := by
      simp [List.isPrefixOf_iff_prefix]
    have hdrop : (dataMarker ++ js).drop 6 = js := by
      have h6 : dataMarker.length = 6 := rfl
      rw [← h6, List.drop_left]
    simp [processLines, hpre, hdrop, h1, h2, h3]

/-- Witness for C9: a marker-free chunk and a concrete unparsable payload. -/
theorem C9_witness :
    processChunkL ("xyz".data) = "xyz".data ∧
    processLines ((dataMarker ++ "garbage".data) :: []) = processLines [] :=
  ⟨C9_theorem.1 ("xyz".data) (by decide),
    C9_theorem.2 ("garbage".data) [] (by decide) (by decide) (by decide)⟩

/-- C10 (counterexample): with the provider's API key unset, a POST whose body
is not valid JSON is answered 500 `MISSING_API_KEY` — the key check precedes
body parsing — not the claimed 400. -/
theorem C10_counterexample :
    routeStatus (pitchRoutePOST false none) = some 500 ∧
    routeStatus (pitchRoutePOST false none) ≠ some 400 :=
  ⟨by decide, by decide⟩

/-- C10 (amended): provided the provider's API key is configured, a POST with
an unparsable JSON body, or one whose fields fail validation (missing,
non-string, or whitespace-only `concept`/`userGroup`, and for the judge a
missing/invalid pitch), is answered 400 with a non-retryable
`{error, message, code, retryable: false}` envelope and never reaches the
upstream model; when the key is missing the handler instead answers 500
`MISSING_API_KEY` before even parsing the body (see the counterexample). -/
theorem C10_theorem :
    (pitchRoutePOST true none = RouteResult.errorResponse 400
      ⟨"Invalid request", "Request body must be valid JSON", "INVALID_JSON",
        false⟩) ∧
    (∀ (b : PitchBody) (err : String), validateRequest b = some err →
      pitchRoutePOST true (some b) = RouteResult.errorResponse 400
        ⟨"Validation error", err, "VALIDATION_ERROR", false⟩) ∧
    (judgeRoutePOST true none = RouteResult.errorResponse 400
      ⟨"Invalid request", "Request body must be valid JSON", "INVALID_JSON",
        false⟩) ∧
    (∀ (b : JudgeBody) (err : String), validateJudgeRequest b = some err →
      judgeRoutePOST true (some b) = RouteResult.errorResponse 400
        ⟨"Validation error", err, "VALIDATION_ERROR", false⟩) ∧
    (∀ b : PitchBody,
      (b.concept = none ∨ (∃ q, b.concept = some (.num q)) ∨
        (∃ s, b.concept = some (.str s) ∧ jsTrimS s = "")) →
      (validateRequest b).isSome = true) := by
  refine ⟨rfl, ?_, rfl, ?_, ?_⟩
  · intro b err h
    simp [pitchRoutePOST, h]
  · intro b err h
    simp [judgeRoutePOST, h]
  · intro b hb
    rcases hb with h | ⟨q, h⟩ | ⟨s, h, hs⟩
    · simp [validateRequest, fieldTruthy, h]
    · simp [validateRequest, fieldIsString, h]
    · unfold validateRequest
      rw [h]
      split_ifs with c1 c2 c3 c4 <;> simp_all [strOf]

/-- Witness for C10: a whitespace-only concept, a missing pitches object, and
a missing concept field. -/
theorem C10_witness :
    pitchRoutePOST true (some ⟨some (.str " "), some (.str "remote workers")⟩)
      = RouteResult.errorResponse 400
        ⟨"Validation error", "Concept cannot be empty", "VALIDATION_ERROR",
          false⟩ ∧
    judgeRoutePOST true (some ⟨some (.str "app"), some (.str "users"), none⟩)
      = RouteResult.errorResponse 400
        ⟨"Validation error", "Missing or invalid pitches field",
          "VALIDATION_ERROR", false⟩ ∧
    (validateRequest ⟨none, some (.str "users")⟩).isSome = true :=
  ⟨C10_theorem.2.1 _ _ (by decide), C10_theorem.2.2.2.1 _ _ (by decide),
    C10_theorem.2.2.2.2 _ (Or.inl rfl)⟩

end Battle
